import Mathlib

/-!
# k4sper1love/sso: the authentication service and its gRPC adapter

A shallow embedding of

* `internal/services/auth/auth.go` (`Auth.Login`, `Auth.Register`, `Auth.IsAdmin`),
* `internal/grpc/auth/server.go` (`serverAPI.Login`, `serverAPI.Register`,
  `serverAPI.IsAdmin`).

Conventions.

* A Go result pair `(v, err)` is a Lean pair `(v, e)` with `e : Option GoError`;
  `none` is Go's `nil`.
* Everything the service reaches through an interface or an imported package
  (storage, `bcrypt`, `jwt`) is a field of a record.  Calls that can read or
  change the outside world (storage, random salt, clock) are functions on an
  explicit state `σ`.
* Every call to a collaborator is appended to a trace, in program order, so that
  "is called", "is not called" and "is called once" are statements about a list.
* Go's `int`, `int32`, `int64` and `time.Duration` values are `Int`: the code
  performs no arithmetic on them, and the conversions `int(·)` and `int64(·)`
  between them are exact on a platform with 64-bit `int`.
* The `context.Context` argument (cancellation, deadlines) is not modelled.
-/

namespace Sso

/-! ## Go errors -/

/-- A Go error value: either a leaf created once (`errors.New`, `fmt.Errorf`
without `%w`), identified by `id`, or a node made by `fmt.Errorf` with one `%w`
verb, which carries its text and the error it wraps.  These are the errors the
code at hand builds; error types with an `Is` method of their own or with several
wrapped errors are outside this model. -/
inductive GoError where
  | sentinel (id : Nat) (text : String)
  | wrap (text : String) (inner : GoError)
deriving DecidableEq

/-- The method `Error()`. -/
def GoError.Error : GoError → String
  | .sentinel _ text => text
  | .wrap text _ => text

/-- The method `Unwrap()`: present on the result of `fmt.Errorf` with `%w` only. -/
def GoError.Unwrap : GoError → Option GoError
  | .sentinel _ _ => none
  | .wrap _ inner => some inner

/-- Go's `errors.Is(err, target)`: walk the `Unwrap` chain of `err` and compare
each element with `target`. -/
def errorsIs : GoError → GoError → Bool
  | .sentinel id text, target => decide (GoError.sentinel id text = target)
  | .wrap text inner, target =>
    if GoError.wrap text inner = target then true else errorsIs inner target

/-- The call `fmt.Errorf("%s: %w", op, err)`. -/
def Errorf (op : String) (err : GoError) : GoError :=
  .wrap (op ++ ": " ++ err.Error) err

/-- The variable `ErrInvalidCredentials = fmt.Errorf("invalid credentials")` (auth.go, line 18). -/
def ErrInvalidCredentials : GoError := .sentinel 0 "invalid credentials"

/-- Modelled from the spec: the constant `storage.ErrUserNotFound`, declared in
package `internal/storage`, which is absent; the spec asks the user lookup for "a
distinguishable not-found error value".  It is a leaf error of its own. -/
def ErrUserNotFound : GoError := .sentinel 1 "user not found"

/-- The variable `bcrypt.ErrMismatchedHashAndPassword` of `golang.org/x/crypto/bcrypt`: the
error `CompareHashAndPassword` returns for a wrong password. -/
def ErrMismatchedHashAndPassword : GoError :=
  .sentinel 2 "crypto/bcrypt: hashedPassword is not the hash of the given password"

/-! ## Data model -/

/-- A Go `[]byte`. -/
abbrev Bytes := List UInt8

/-- The conversion `[]byte(s)`: the UTF-8 bytes of a string. -/
def stringBytes (s : String) : Bytes := s.toUTF8.data.toList

/-- Modelled from the spec: the record `models.User` of package
`internal/domain/models`, which is absent ("numeric identifier, email, password
digest, administrator flag").  The service reads the field `PasswordHash` only. -/
structure User where
  ID : Int
  Email : String
  PasswordHash : Bytes
  IsAdmin : Bool
deriving DecidableEq

/-- Modelled from the spec: the record `models.App` of package
`internal/domain/models`, which is absent ("numeric identifier, a secret or
signing parameter").  The service passes it on and reads no field. -/
structure App where
  ID : Int
  Name : String
  Secret : String
deriving DecidableEq

/-- The level of a `slog` record. -/
inductive Level where
  | Info | Warn | Error
deriving DecidableEq

/-- What the service does to the outside world, in program order. -/
inductive Event where
  | log (lvl : Level) (attrs : List (String × String)) (msg : String) (err : Option GoError)
  | user (email : String)
  | compare (hash password : Bytes)
  | app (appID : Int)
  | newToken (user : User) (app : App) (ttl : Int)
  | generate (password : Bytes) (cost : Int)
  | saveUser (email : String) (hash : Bytes)
  | isAdmin (userID : Int)
deriving DecidableEq

/-- The outside world of the service: the state behind its collaborators and the
trace of calls made so far. -/
structure World (σ : Type) where
  st : σ
  trace : List Event

/-- The interface `UserSaver`. -/
structure UserSaver (σ : Type) where
  SaveUser : String → Bytes → σ → (Int × Option GoError) × σ

/-- The interface `UserProvider`. -/
structure UserProvider (σ : Type) where
  User : String → σ → (User × Option GoError) × σ
  IsAdmin : Int → σ → (Bool × Option GoError) × σ

/-- The interface `AppProvider`. -/
structure AppProvider (σ : Type) where
  App : Int → σ → (App × Option GoError) × σ

/-- The struct `Auth`.  Its field `log` is represented by the `log` events of the
trace. -/
structure Auth (σ : Type) where
  userSaver : UserSaver σ
  userProvider : UserProvider σ
  appProvider : AppProvider σ
  tokenTTL : Int

/-- The package-level functions the service imports: `bcrypt.CompareHashAndPassword`
and `bcrypt.GenerateFromPassword` (the latter draws a random salt, hence the
state), and `jwt.NewToken` of `internal/lib/jwt`, which is absent from the
sources at hand (it reads the clock, hence the state). -/
structure Lib (σ : Type) where
  CompareHashAndPassword : Bytes → Bytes → Option GoError
  GenerateFromPassword : Bytes → Int → σ → (Bytes × Option GoError) × σ
  NewToken : User → App → Int → σ → (String × Option GoError) × σ

/-- The constant `bcrypt.DefaultCost`. -/
def DefaultCost : Int := 10

/-! ## Calls to collaborators, recorded -/

/-- Append one event to the trace. -/
def World.emit {σ : Type} (w : World σ) (e : Event) : World σ :=
  { st := w.st, trace := w.trace ++ [e] }

/-- Run a stateful collaborator call and record it. -/
def World.call {σ α : Type} (w : World σ) (e : Event) (f : σ → α × σ) : α × World σ :=
  ((f w.st).1, { st := (f w.st).2, trace := w.trace ++ [e] })

/-- A record written through `slog`; `attrs` are the attributes of `log.With`,
`err` the error passed as `sl.Err(err)`. -/
def slog {σ : Type} (lvl : Level) (attrs : List (String × String)) (msg : String)
    (err : Option GoError) (w : World σ) : World σ :=
  w.emit (.log lvl attrs msg err)

/-! ## `internal/services/auth/auth.go` -/

/-- The method `func (a *Auth) Login(ctx, email, password string, appID int) (string, error)`. -/
def Auth.Login {σ : Type} (lib : Lib σ) (a : Auth σ) (email password : String) (appID : Int)
    (w : World σ) : (String × Option GoError) × World σ :=
  let op := "Auth.Login"
  let log := [("op", op), ("email", email)]
  let w := slog .Info log "attempting to login user" none w
  match w.call (.user email) (a.userProvider.User email) with
  | ((_, some err), w) =>
    if errorsIs err ErrUserNotFound then
      let w := slog .Warn [] "user not found" (some err) w
      (("", some (Errorf op ErrInvalidCredentials)), w)
    else
      let w := slog .Error [] "failed to get user" (some err) w
      (("", some (Errorf op err)), w)
  | ((user, none), w) =>
    let w := w.emit (.compare user.PasswordHash (stringBytes password))
    match lib.CompareHashAndPassword user.PasswordHash (stringBytes password) with
    | some err =>
      let w := slog .Info [] "invalid credentials" (some err) w
      (("", some (Errorf op err)), w)
    | none =>
      match w.call (.app appID) (a.appProvider.App appID) with
      | ((_, some err), w) =>
        let w := slog .Error [] "failed to get app" (some err) w
        (("", some (Errorf op err)), w)
      | ((app, none), w) =>
        let w := slog .Info log "user logged in successfully" none w
        match w.call (.newToken user app a.tokenTTL) (lib.NewToken user app a.tokenTTL) with
        | ((_, some err), w) =>
          let w := slog .Error [] "failed to create token" (some err) w
          (("", some (Errorf op err)), w)
        | ((token, none), w) => ((token, none), w)

/-- The method `func (a *Auth) Register(ctx, email, password string) (int, error)`. -/
def Auth.Register {σ : Type} (lib : Lib σ) (a : Auth σ) (email password : String)
    (w : World σ) : (Int × Option GoError) × World σ :=
  let op := "Auth.Register"
  let log := [("op", op), ("email", email)]
  let w := slog .Info log "attempting to register user" none w
  match w.call (.generate (stringBytes password) DefaultCost)
      (lib.GenerateFromPassword (stringBytes password) DefaultCost) with
  | ((_, some err), w) =>
    let w := slog .Error [] "failed to hash password" (some err) w
    ((0, some (Errorf op err)), w)
  | ((passwordHash, none), w) =>
    match w.call (.saveUser email passwordHash) (a.userSaver.SaveUser email passwordHash) with
    | ((_, some err), w) =>
      let w := slog .Error [] "failed to save user" (some err) w
      ((0, some (Errorf op err)), w)
    | ((userID, none), w) => ((userID, none), w)

/-- The method `func (a *Auth) IsAdmin(ctx, userID int) (bool, error)`. -/
def Auth.IsAdmin {σ : Type} (a : Auth σ) (userID : Int) (w : World σ) :
    (Bool × Option GoError) × World σ :=
  let op := "Auth.IsAdmin"
  let log := [("op", op), ("user_id", toString userID)]
  let w := slog .Info log "checking if user is admin" none w
  match w.call (.isAdmin userID) (a.userProvider.IsAdmin userID) with
  | ((_, some err), w) =>
    let w := slog .Error [] "failed to check if user is admin" (some err) w
    ((false, some (Errorf op err)), w)
  | ((isAdmin, none), w) => ((isAdmin, none), w)

/-! ## `internal/grpc/auth/server.go` -/

namespace Grpc

/-- The status codes of `google.golang.org/grpc/codes`. -/
inductive Code where
  | OK | Canceled | Unknown | InvalidArgument | DeadlineExceeded | NotFound
  | AlreadyExists | PermissionDenied | ResourceExhausted | FailedPrecondition
  | Aborted | OutOfRange | Unimplemented | Internal | Unavailable | DataLoss
  | Unauthenticated
deriving DecidableEq

/-- What reaches the wire when a handler returns a non-nil error: a code and a
message. -/
structure Status where
  code : Code
  message : String
deriving DecidableEq

/-- The call `status.Error(c, msg)`: nil for `codes.OK`, else the status as an
error. -/
def status.Error (c : Code) (msg : String) : Option Status :=
  if c = .OK then none else some { code := c, message := msg }

/-- The message `ssov1.LoginRequest`, read through `GetEmail`, `GetPassword`,
`GetAppId`. -/
structure LoginRequest where
  Email : String
  Password : String
  AppId : Int
deriving DecidableEq

/-- The message `ssov1.LoginResponse`. -/
structure LoginResponse where
  Token : String
deriving DecidableEq

/-- The message `ssov1.RegisterRequest`. -/
structure RegisterRequest where
  Email : String
  Password : String
deriving DecidableEq

/-- The message `ssov1.RegisterResponse`. -/
structure RegisterResponse where
  UserId : Int
deriving DecidableEq

/-- The message `ssov1.IsAdminRequest`. -/
structure IsAdminRequest where
  UserId : Int
deriving DecidableEq

/-- The message `ssov1.IsAdminResponse`. -/
structure IsAdminResponse where
  IsAdmin : Bool
deriving DecidableEq

/-- The constant `emptyValue`. -/
def emptyValue : Int := 0

/-- The interface `Auth` of the transport package: the service as the handlers
see it, over the service's own world `τ`. -/
structure Auth (τ : Type) where
  Login : String → String → Int → τ → (String × Option GoError) × τ
  Register : String → String → τ → (Int × Option GoError) × τ
  IsAdmin : Int → τ → (Bool × Option GoError) × τ

/-- The struct `serverAPI`. -/
structure serverAPI (τ : Type) where
  auth : Auth τ

/-- A call a handler makes on the service. -/
inductive Call where
  | login (email password : String) (appID : Int)
  | register (email password : String)
  | isAdmin (userID : Int)
deriving DecidableEq

/-- The outside world of a handler: the service's world and the calls made on
the service so far. -/
structure Rpc (τ : Type) where
  st : τ
  calls : List Call

/-- Run a call on the service and record it. -/
def Rpc.call {τ α : Type} (w : Rpc τ) (c : Call) (f : τ → α × τ) : α × Rpc τ :=
  ((f w.st).1, { st := (f w.st).2, calls := w.calls ++ [c] })

/-- The handler `func (s *serverAPI) Login(ctx, req) (*ssov1.LoginResponse, error)`. -/
def serverAPI.Login {τ : Type} (s : serverAPI τ) (req : LoginRequest) (w : Rpc τ) :
    (Option LoginResponse × Option Status) × Rpc τ :=
  if req.Email = "" then
    ((none, status.Error .InvalidArgument "email is required"), w)
  else if req.Password = "" then
    ((none, status.Error .InvalidArgument "password is required"), w)
  else if req.AppId = emptyValue then
    ((none, status.Error .InvalidArgument "app_id is required"), w)
  else
    match w.call (.login req.Email req.Password req.AppId)
        (s.auth.Login req.Email req.Password req.AppId) with
    | ((_, some _), w) => ((none, status.Error .Internal "failed to login"), w)
    | ((token, none), w) => ((some { Token := token }, none), w)

/-- The handler `func (s *serverAPI) Register(ctx, req) (*ssov1.RegisterResponse, error)`. -/
def serverAPI.Register {τ : Type} (s : serverAPI τ) (req : RegisterRequest) (w : Rpc τ) :
    (Option RegisterResponse × Option Status) × Rpc τ :=
  if req.Email = "" then
    ((none, status.Error .InvalidArgument "email is required"), w)
  else if req.Password = "" then
    ((none, status.Error .InvalidArgument "password is required"), w)
  else
    match w.call (.register req.Email req.Password)
        (s.auth.Register req.Email req.Password) with
    | ((_, some _), w) => ((none, status.Error .Internal "failed to register"), w)
    | ((userID, none), w) => ((some { UserId := userID }, none), w)

/-- The handler `func (s *serverAPI) IsAdmin(ctx, req) (*ssov1.IsAdminResponse, error)`. -/
def serverAPI.IsAdmin {τ : Type} (s : serverAPI τ) (req : IsAdminRequest) (w : Rpc τ) :
    (Option IsAdminResponse × Option Status) × Rpc τ :=
  if req.UserId = emptyValue then
    ((none, status.Error .InvalidArgument "user_id is required"), w)
  else
    match w.call (.isAdmin req.UserId) (s.auth.IsAdmin req.UserId) with
    | ((_, some _), w) => ((none, status.Error .Internal "failed to check admin status"), w)
    | ((isAdmin, none), w) => ((some { IsAdmin := isAdmin }, none), w)

/-- The wiring of `app.New` and `Register(gRPCServer, auth)`: the handlers are
served by the authentication service. -/
def served {σ : Type} (lib : Lib σ) (a : Sso.Auth σ) : serverAPI (World σ) :=
  { auth :=
      { Login := fun email password appID w => Sso.Auth.Login lib a email password appID w
        Register := fun email password w => Sso.Auth.Register lib a email password w
        IsAdmin := fun userID w => Sso.Auth.IsAdmin a userID w } }

end Grpc

/-! ## A small in-memory instance

A storage with lists of users and applications, a hasher and a token issuer of
a few lines each: the inputs at which the theorems below are evaluated. -/

namespace Mem

/-- The state behind the in-memory collaborators. -/
structure Store where
  users : List User
  apps : List App
  nextID : Int
  salt : UInt8
  now : Int
deriving DecidableEq

/-- The error of a second registration of one email. -/
def ErrUserExists : GoError := .sentinel 3 "user already exists"

/-- The error of an unknown application. -/
def ErrAppNotFound : GoError := .sentinel 4 "app not found"

/-- The error of the storage being out of reach. -/
def ErrUnavailable : GoError := .sentinel 5 "database is locked"

/-- The error of a password longer than 72 bytes. -/
def ErrPasswordTooLong : GoError :=
  .sentinel 6 "bcrypt: password length exceeds 72 bytes"

/-- The error of a stored digest too short to be one. -/
def ErrHashTooShort : GoError :=
  .sentinel 7 "crypto/bcrypt: hashedSecret too short to be a bcrypted password"

/-- The error of a token that cannot be signed. -/
def ErrSigning : GoError := .sentinel 8 "key is invalid"

/-- Insert a user under a fresh id unless the email is taken. -/
def SaveUser (email : String) (hash : Bytes) (st : Store) : (Int × Option GoError) × Store :=
  match st.users.find? (fun u => u.Email = email) with
  | some _ => ((0, some (Errorf "storage.SaveUser" ErrUserExists)), st)
  | none =>
    ((st.nextID, none),
      { st with
        users := st.users ++ [{ ID := st.nextID, Email := email, PasswordHash := hash,
                                IsAdmin := false }]
        nextID := st.nextID + 1 })

/-- Look a user up by email. -/
def getUser (email : String) (st : Store) : (User × Option GoError) × Store :=
  match st.users.find? (fun u => u.Email = email) with
  | some u => ((u, none), st)
  | none =>
    (({ ID := 0, Email := "", PasswordHash := [], IsAdmin := false },
      some (Errorf "storage.User" ErrUserNotFound)), st)

/-- Look the administrator flag up by user id. -/
def getIsAdmin (userID : Int) (st : Store) : (Bool × Option GoError) × Store :=
  match st.users.find? (fun u => u.ID = userID) with
  | some u => ((u.IsAdmin, none), st)
  | none => ((false, some (Errorf "storage.IsAdmin" ErrUserNotFound)), st)

/-- Look an application up by id. -/
def getApp (appID : Int) (st : Store) : (App × Option GoError) × Store :=
  match st.apps.find? (fun p => p.ID = appID) with
  | some p => ((p, none), st)
  | none =>
    (({ ID := 0, Name := "", Secret := "" }, some (Errorf "storage.App" ErrAppNotFound)), st)

/-- A salted digest: the salt, then every byte of the password shifted by it. -/
def digest (salt : UInt8) (password : Bytes) : Bytes :=
  salt :: password.map (fun b => b + salt)

/-- Hash with the next salt; passwords over 72 bytes are refused. -/
def GenerateFromPassword (password : Bytes) (_cost : Int) (st : Store) :
    (Bytes × Option GoError) × Store :=
  if password.length > 72 then (([], some ErrPasswordTooLong), st)
  else ((digest st.salt password, none), { st with salt := st.salt + 1 })

/-- Compare a password with a digest under the salt stored in the digest. -/
def CompareHashAndPassword (hash password : Bytes) : Option GoError :=
  match hash with
  | [] => some ErrHashTooShort
  | salt :: _ => if hash = digest salt password then none else some ErrMismatchedHashAndPassword

/-- Issue a token naming the user, the application and the expiry; an
application without a secret cannot sign. -/
def NewToken (user : User) (app : App) (ttl : Int) (st : Store) :
    (String × Option GoError) × Store :=
  if app.Secret = "" then (("", some ErrSigning), st)
  else
    ((user.Email ++ "|" ++ app.Name ++ "|" ++ toString (st.now + ttl) ++ "|" ++ app.Secret,
      none), st)

/-- The in-memory storage behind the three interfaces, as in `app.New`. -/
def auth : Auth Store :=
  { userSaver := { SaveUser := SaveUser }
    userProvider := { User := getUser, IsAdmin := getIsAdmin }
    appProvider := { App := getApp }
    tokenTTL := 3600 }

/-- The in-memory hasher and token issuer. -/
def lib : Lib Store :=
  { CompareHashAndPassword := CompareHashAndPassword
    GenerateFromPassword := GenerateFromPassword
    NewToken := NewToken }

/-- A storage that fails every call with `ErrUnavailable`. -/
def downAuth : Auth Store :=
  { userSaver := { SaveUser := fun _ _ st => ((0, some ErrUnavailable), st) }
    userProvider :=
      { User := fun _ st =>
          (({ ID := 0, Email := "", PasswordHash := [], IsAdmin := false },
            some ErrUnavailable), st)
        IsAdmin := fun _ st => ((false, some ErrUnavailable), st) }
    appProvider :=
      { App := fun _ st => (({ ID := 0, Name := "", Secret := "" }, some ErrUnavailable), st) }
    tokenTTL := 3600 }

/-- An empty storage with one application, id 1, and one without a secret, id 2. -/
def w0 : World Store :=
  { st :=
      { users := []
        apps := [{ ID := 1, Name := "test", Secret := "test-secret" },
                 { ID := 2, Name := "nokey", Secret := "" }]
        nextID := 1, salt := 7, now := 1000 }
    trace := [] }

/-- The world after `Register("a@x.com", "pw123")` on `w0`. -/
def w1 : World Store := (Auth.Register lib auth "a@x.com" "pw123" w0).2

/-- A password of 80 bytes. -/
def longPassword : String := String.mk (List.replicate 80 'x')

/-- The world `w1` with one more user, id 5, an administrator. -/
def w2 : World Store :=
  { st :=
      { w1.st with
        users := w1.st.users ++
          [{ ID := 5, Email := "root@x.com", PasswordHash := digest 3 (stringBytes "toor"),
             IsAdmin := true }]
        nextID := 6 }
    trace := [] }

end Mem


/-! ## Statement vocabulary -/

/-- The `SaveUser` calls of a trace, in order, each with its email and digest. -/
def saveUserCalls : List Event → List (String × Bytes)
  | [] => []
  | .saveUser email hash :: rest => (email, hash) :: saveUserCalls rest
  | _ :: rest => saveUserCalls rest

/-- The four steps of `Login` (user lookup, digest comparison, application
lookup, token creation) all report success when run in this order from state
`st`. -/
def loginStepsSucceed {σ : Type} (lib : Lib σ) (a : Auth σ) (email password : String)
    (appID : Int) (st : σ) : Bool :=
  let u := a.userProvider.User email st
  let p := a.appProvider.App appID u.2
  u.1.2.isNone
    && (lib.CompareHashAndPassword u.1.1.PasswordHash (stringBytes password)).isNone
    && p.1.2.isNone
    && (lib.NewToken u.1.1 p.1.1 a.tokenTTL p.2).1.2.isNone

/-- The output of the token issuer for the looked-up user, the looked-up
application and the configured `tokenTTL`. -/
def issuedToken {σ : Type} (lib : Lib σ) (a : Auth σ) (email : String) (appID : Int)
    (st : σ) : String :=
  let u := a.userProvider.User email st
  let p := a.appProvider.App appID u.2
  (lib.NewToken u.1.1 p.1.1 a.tokenTTL p.2).1.1

/-! ## Lemmas on errors -/

theorem errorsIs_self (e : GoError) : errorsIs e e = true := by
  cases e <;> simp [errorsIs]

theorem errorsIs_Errorf_inner (op : String) (e : GoError) :
    errorsIs (Errorf op e) e = true := by
  simp [Errorf, errorsIs, errorsIs_self]

theorem errorsIs_Errorf_sentinel (op : String) (e : GoError) (id : Nat) (text : String) :
    errorsIs (Errorf op e) (.sentinel id text) = errorsIs e (.sentinel id text) := by
  simp [Errorf, errorsIs]

theorem errorsIs_Errorf_invalid (op : String) (e : GoError) :
    errorsIs (Errorf op e) ErrInvalidCredentials = errorsIs e ErrInvalidCredentials :=
  errorsIs_Errorf_sentinel op e 0 "invalid credentials"

theorem saveUserCalls_append (xs ys : List Event) :
    saveUserCalls (xs ++ ys) = saveUserCalls xs ++ saveUserCalls ys := by
  induction xs with
  | nil => rfl
  | cons x xs ih => cases x <;> simp [saveUserCalls, ih]

/-! ## The authentication service -/

/-- The wrong-password branch of `Login` (auth.go, lines 80 to 83) in general:
when the lookup succeeds and the comparison returns `err`, `Login` returns the
empty token and `err` itself wrapped under `Auth.Login`, so the result is in the
`ErrInvalidCredentials` category only if `err` already was. -/
theorem Login_comparison_error {σ : Type} (lib : Lib σ) (a : Auth σ)
    (email password : String) (appID : Int) (w : World σ) (user : User) (err : GoError)
    (s1 : σ)
    (hlookup : a.userProvider.User email w.st = ((user, none), s1))
    (hcompare : lib.CompareHashAndPassword user.PasswordHash (stringBytes password)
      = some err) :
    (Auth.Login lib a email password appID w).1 = ("", some (Errorf "Auth.Login" err))
    ∧ errorsIs (Errorf "Auth.Login" err) ErrInvalidCredentials
        = errorsIs err ErrInvalidCredentials := by
  refine ⟨?_, errorsIs_Errorf_invalid _ _⟩
  simp [Auth.Login, World.call, slog, World.emit, hlookup, hcompare]

/-- C1, evaluated on the code: the user `a@x.com` is registered and `wrong` is
not the password, so the digest comparison reports a mismatch; `Login` returns
the empty token and the comparison error wrapped under `Auth.Login`, which is not
in the `ErrInvalidCredentials` category, while an unregistered email does give
that category. -/
theorem Login_wrong_password_outside_category :
    (Mem.getUser "a@x.com" Mem.w1.st).1.2 = none
    ∧ Mem.CompareHashAndPassword (Mem.getUser "a@x.com" Mem.w1.st).1.1.PasswordHash
        (stringBytes "wrong") = some ErrMismatchedHashAndPassword
    ∧ (Auth.Login Mem.lib Mem.auth "a@x.com" "wrong" 1 Mem.w1).1
        = ("", some (Errorf "Auth.Login" ErrMismatchedHashAndPassword))
    ∧ errorsIs (Errorf "Auth.Login" ErrMismatchedHashAndPassword) ErrInvalidCredentials
        = false
    ∧ (Auth.Login Mem.lib Mem.auth "nouser@x.com" "pw123" 1 Mem.w1).1
        = ("", some (Errorf "Auth.Login" ErrInvalidCredentials))
    ∧ errorsIs (Errorf "Auth.Login" ErrInvalidCredentials) ErrInvalidCredentials = true := by
  decide

/-- C2: when the user lookup fails with an error that is or wraps
`storage.ErrUserNotFound`, `Login` returns the empty token and
`ErrInvalidCredentials` wrapped under `Auth.Login`; that error is in the
`ErrInvalidCredentials` category and neither is nor wraps the storage error; and
the only calls made are the two log records and the user lookup: no digest
comparison, no application lookup, no token creation.  The returned error is a
wrapper, not the bare sentinel: its `Unwrap` is `ErrInvalidCredentials`, it
differs from it, and its text is `Auth.Login: invalid credentials`. -/
theorem Login_user_not_found {σ : Type} (lib : Lib σ) (a : Auth σ)
    (email password : String) (appID : Int) (w : World σ) (user : User) (err : GoError)
    (s1 : σ)
    (hlookup : a.userProvider.User email w.st = ((user, some err), s1))
    (hnf : errorsIs err ErrUserNotFound = true) :
    (Auth.Login lib a email password appID w).1
        = ("", some (Errorf "Auth.Login" ErrInvalidCredentials))
    ∧ errorsIs (Errorf "Auth.Login" ErrInvalidCredentials) ErrInvalidCredentials = true
    ∧ errorsIs (Errorf "Auth.Login" ErrInvalidCredentials) ErrUserNotFound = false
    ∧ errorsIs (Errorf "Auth.Login" ErrInvalidCredentials) err = false
    ∧ (Auth.Login lib a email password appID w).2.trace
        = w.trace ++
          [.log .Info [("op", "Auth.Login"), ("email", email)] "attempting to login user" none,
           .user email,
           .log .Warn [] "user not found" (some err)]
    ∧ (Auth.Login lib a email password appID w).2.st = s1
    ∧ (∃ e, (Auth.Login lib a email password appID w).1.2 = some e
        ∧ e.Unwrap = some ErrInvalidCredentials
        ∧ e ≠ ErrInvalidCredentials
        ∧ e.Error = "Auth.Login: invalid credentials") := by
  have hres : Auth.Login lib a email password appID w =
      (("", some (Errorf "Auth.Login" ErrInvalidCredentials)),
        { st := s1
          trace := w.trace ++
            [.log .Info [("op", "Auth.Login"), ("email", email)] "attempting to login user" none,
             .user email,
             .log .Warn [] "user not found" (some err)] }) := by
    simp [Auth.Login, World.call, slog, World.emit, hlookup, hnf]
  have herr : errorsIs (Errorf "Auth.Login" ErrInvalidCredentials) err = false := by
    cases h : errorsIs (Errorf "Auth.Login" ErrInvalidCredentials) err with
    | false => rfl
    | true =>
      exfalso
      simp only [Errorf, errorsIs, ErrInvalidCredentials] at h
      split at h
      · rename_i heq
        rw [← heq] at hnf
        simp [errorsIs, ErrUserNotFound] at hnf
      · rw [decide_eq_true_eq] at h
        rw [← h] at hnf
        simp [errorsIs, ErrUserNotFound] at hnf
  rw [hres]
  refine ⟨rfl, ?_, ?_, herr, rfl, rfl, Errorf "Auth.Login" ErrInvalidCredentials, rfl,
    rfl, ?_, ?_⟩
  · decide
  · decide
  · decide
  · decide

/-- C2 at a concrete input: `nouser@x.com` is not registered in `Mem.w1`. -/
theorem Login_user_not_found_witness :
    (Auth.Login Mem.lib Mem.auth "nouser@x.com" "pw123" 1 Mem.w1).1
        = ("", some (Errorf "Auth.Login" ErrInvalidCredentials))
    ∧ (Auth.Login Mem.lib Mem.auth "nouser@x.com" "pw123" 1 Mem.w1).2.trace
        = Mem.w1.trace ++
          [.log .Info [("op", "Auth.Login"), ("email", "nouser@x.com")]
             "attempting to login user" none,
           .user "nouser@x.com",
           .log .Warn [] "user not found" (some (Errorf "storage.User" ErrUserNotFound))]
    ∧ (∃ e, (Auth.Login Mem.lib Mem.auth "nouser@x.com" "pw123" 1 Mem.w1).1.2 = some e
        ∧ e.Unwrap = some ErrInvalidCredentials
        ∧ e ≠ ErrInvalidCredentials
        ∧ e.Error = "Auth.Login: invalid credentials") :=
  have h := Login_user_not_found Mem.lib Mem.auth "nouser@x.com" "pw123" 1 Mem.w1
    { ID := 0, Email := "", PasswordHash := [], IsAdmin := false }
    (Errorf "storage.User" ErrUserNotFound) Mem.w1.st (by decide) (by decide)
  ⟨h.1, h.2.2.2.2.1, h.2.2.2.2.2.2⟩

/-- C3: if hashing the password succeeds with `digest`, `SaveUser(email, digest)`
succeeds, the following `User(email)` returns a user whose stored digest is
`digest`, the comparison of `digest` with the password succeeds, the application
lookup succeeds and the issuer returns `token` without error, then `Register`
returns the new id without error and `Login` right after it returns `token`
without error. -/
theorem Register_then_Login {σ : Type} (lib : Lib σ) (a : Auth σ)
    (email password : String) (appID : Int) (w : World σ)
    (digest : Bytes) (userID : Int) (user : User) (app : App) (token : String)
    (s1 s2 s3 s4 s5 : σ)
    (hhash : lib.GenerateFromPassword (stringBytes password) DefaultCost w.st
      = ((digest, none), s1))
    (hsave : a.userSaver.SaveUser email digest s1 = ((userID, none), s2))
    (huser : a.userProvider.User email s2 = ((user, none), s3))
    (hstored : user.PasswordHash = digest)
    (hverify : lib.CompareHashAndPassword digest (stringBytes password) = none)
    (happ : a.appProvider.App appID s3 = ((app, none), s4))
    (hsign : lib.NewToken user app a.tokenTTL s4 = ((token, none), s5)) :
    (Auth.Register lib a email password w).1 = (userID, none)
    ∧ (Auth.Login lib a email password appID (Auth.Register lib a email password w).2).1
        = (token, none) := by
  have hreg : Auth.Register lib a email password w =
      ((userID, none),
        { st := s2
          trace := w.trace ++
            [.log .Info [("op", "Auth.Register"), ("email", email)]
               "attempting to register user" none,
             .generate (stringBytes password) DefaultCost,
             .saveUser email digest] }) := by
    simp [Auth.Register, World.call, slog, World.emit, hhash, hsave]
  rw [hreg]
  refine ⟨rfl, ?_⟩
  rw [← hstored] at hverify
  simp [Auth.Login, World.call, slog, World.emit, huser, hverify, happ, hsign]

/-- C3 at a concrete input: the scenario `Register("a@x.com", "pw123")`, then
`Login("a@x.com", "pw123", 1)`, on the in-memory instance. -/
theorem Register_then_Login_witness :
    (Auth.Register Mem.lib Mem.auth "a@x.com" "pw123" Mem.w0).1 = (1, none)
    ∧ (Auth.Login Mem.lib Mem.auth "a@x.com" "pw123" 1
        (Auth.Register Mem.lib Mem.auth "a@x.com" "pw123" Mem.w0).2).1
        = ("a@x.com|test|4600|test-secret", none) :=
  Register_then_Login Mem.lib Mem.auth "a@x.com" "pw123" 1 Mem.w0
    (Mem.digest 7 (stringBytes "pw123")) 1
    { ID := 1, Email := "a@x.com", PasswordHash := Mem.digest 7 (stringBytes "pw123"),
      IsAdmin := false }
    { ID := 1, Name := "test", Secret := "test-secret" }
    "a@x.com|test|4600|test-secret"
    { Mem.w0.st with salt := 8 }
    (Mem.SaveUser "a@x.com" (Mem.digest 7 (stringBytes "pw123"))
      { Mem.w0.st with salt := 8 }).2
    (Mem.SaveUser "a@x.com" (Mem.digest 7 (stringBytes "pw123"))
      { Mem.w0.st with salt := 8 }).2
    (Mem.SaveUser "a@x.com" (Mem.digest 7 (stringBytes "pw123"))
      { Mem.w0.st with salt := 8 }).2
    (Mem.SaveUser "a@x.com" (Mem.digest 7 (stringBytes "pw123"))
      { Mem.w0.st with salt := 8 }).2
    (by decide) (by decide) (by decide) (by decide) (by decide) (by decide) (by decide)


/-- C4: `Login` returns a nil error exactly when the user lookup, the digest
comparison against the looked-up digest, the application lookup and the token
creation all succeeded; then the token is the issuer's output for the looked-up
user, the looked-up application and `tokenTTL`; in every other case the token is
the empty string. -/
theorem Login_nil_error_iff_all_steps {σ : Type} (lib : Lib σ) (a : Auth σ)
    (email password : String) (appID : Int) (w : World σ) :
    ((Auth.Login lib a email password appID w).1.2 = none
        ↔ loginStepsSucceed lib a email password appID w.st = true)
    ∧ (loginStepsSucceed lib a email password appID w.st = true →
        (Auth.Login lib a email password appID w).1
          = (issuedToken lib a email appID w.st, none))
    ∧ (loginStepsSucceed lib a email password appID w.st = false →
        (Auth.Login lib a email password appID w).1.1 = ""
        ∧ (Auth.Login lib a email password appID w).1.2 ≠ none) := by
  rcases hu : a.userProvider.User email w.st with ⟨⟨user, _ | e1⟩, s1⟩
  · rcases hc : lib.CompareHashAndPassword user.PasswordHash (stringBytes password)
      with _ | e2
    · rcases hp : a.appProvider.App appID s1 with ⟨⟨app, _ | e3⟩, s2⟩
      · rcases ht : lib.NewToken user app a.tokenTTL s2 with ⟨⟨token, _ | e4⟩, s3⟩
        · simp [Auth.Login, World.call, slog, World.emit, loginStepsSucceed, issuedToken,
            hu, hc, hp, ht]
        · simp [Auth.Login, World.call, slog, World.emit, loginStepsSucceed, issuedToken,
            hu, hc, hp, ht]
      · simp [Auth.Login, World.call, slog, World.emit, loginStepsSucceed, issuedToken,
          hu, hc, hp]
    · simp [Auth.Login, World.call, slog, World.emit, loginStepsSucceed, issuedToken,
        hu, hc]
  · by_cases hnf : errorsIs e1 ErrUserNotFound = true
    · simp [Auth.Login, World.call, slog, World.emit, loginStepsSucceed, issuedToken,
        hu, hnf]
    · simp [Auth.Login, World.call, slog, World.emit, loginStepsSucceed, issuedToken,
        hu, hnf]

/-- C4 at concrete inputs: the right password gives the issuer's token, the
wrong one the empty token and an error. -/
theorem Login_nil_error_iff_all_steps_witness :
    (Auth.Login Mem.lib Mem.auth "a@x.com" "pw123" 1 Mem.w1).1
        = ("a@x.com|test|4600|test-secret", none)
    ∧ ((Auth.Login Mem.lib Mem.auth "a@x.com" "wrong" 1 Mem.w1).1.1 = ""
        ∧ (Auth.Login Mem.lib Mem.auth "a@x.com" "wrong" 1 Mem.w1).1.2 ≠ none)
    ∧ ((Auth.Login Mem.lib Mem.auth "a@x.com" "pw123" 2 Mem.w1).1.1 = ""
        ∧ (Auth.Login Mem.lib Mem.auth "a@x.com" "pw123" 2 Mem.w1).1.2 ≠ none) :=
  ⟨(Login_nil_error_iff_all_steps Mem.lib Mem.auth "a@x.com" "pw123" 1 Mem.w1).2.1
      (by decide),
    (Login_nil_error_iff_all_steps Mem.lib Mem.auth "a@x.com" "wrong" 1 Mem.w1).2.2
      (by decide),
    (Login_nil_error_iff_all_steps Mem.lib Mem.auth "a@x.com" "pw123" 2 Mem.w1).2.2
      (by decide)⟩

/-- C6: when the storage lookup of the administrator flag succeeds with `flag`,
`IsAdmin` returns `(flag, nil)`; when it fails with `err`, `IsAdmin` returns
`false` and `err` wrapped under `Auth.IsAdmin`; the returned error is nil only
when the lookup succeeded. -/
theorem IsAdmin_returns_stored_flag {σ : Type} (a : Auth σ) (userID : Int) (w : World σ)
    (flag : Bool) (e : Option GoError) (s1 : σ)
    (hlookup : a.userProvider.IsAdmin userID w.st = ((flag, e), s1)) :
    (e = none → (Auth.IsAdmin a userID w).1 = (flag, none))
    ∧ (∀ err, e = some err →
        (Auth.IsAdmin a userID w).1 = (false, some (Errorf "Auth.IsAdmin" err))
        ∧ (Errorf "Auth.IsAdmin" err).Unwrap = some err
        ∧ errorsIs (Errorf "Auth.IsAdmin" err) err = true)
    ∧ ((Auth.IsAdmin a userID w).1.2 = none ↔ e = none) := by
  cases e with
  | none => simp [Auth.IsAdmin, World.call, slog, World.emit, hlookup]
  | some err =>
    simp [Auth.IsAdmin, World.call, slog, World.emit, hlookup, errorsIs_Errorf_inner]
    simp [Errorf, GoError.Unwrap]

/-- C6 at concrete inputs: user 5 is an administrator, user 1 is not, user 42
does not exist. -/
theorem IsAdmin_returns_stored_flag_witness :
    (Auth.IsAdmin Mem.auth 5 Mem.w2).1 = (true, none)
    ∧ (Auth.IsAdmin Mem.auth 1 Mem.w2).1 = (false, none)
    ∧ (Auth.IsAdmin Mem.auth 42 Mem.w2).1
        = (false, some (Errorf "Auth.IsAdmin" (Errorf "storage.IsAdmin" ErrUserNotFound))) :=
  ⟨(IsAdmin_returns_stored_flag Mem.auth 5 Mem.w2 true none Mem.w2.st (by decide)).1 rfl,
    (IsAdmin_returns_stored_flag Mem.auth 1 Mem.w2 false none Mem.w2.st (by decide)).1 rfl,
    ((IsAdmin_returns_stored_flag Mem.auth 42 Mem.w2 false
      (some (Errorf "storage.IsAdmin" ErrUserNotFound)) Mem.w2.st (by decide)).2.1
      _ rfl).1⟩

/-- C7: `Register` calls `SaveUser` once, with the given email and the digest
the hasher returned for the bytes of the password, when hashing succeeded, and
not at all when hashing failed; it returns `(id, nil)` exactly when hashing
succeeded and `SaveUser` returned `(id, nil)`; when hashing fails it returns 0
and the hashing error wrapped under `Auth.Register`, and when saving fails it
returns 0 and the saving error wrapped under `Auth.Register`.  In both cases the
returned error is a wrapper around the failing step's error, not that error
itself: its `Unwrap` is the step's error and its text is the step's text after
`Auth.Register: `. -/
theorem Register_saves_digest_once {σ : Type} (lib : Lib σ) (a : Auth σ)
    (email password : String) (w : World σ)
    (digest : Bytes) (e : Option GoError) (s1 : σ)
    (hhash : lib.GenerateFromPassword (stringBytes password) DefaultCost w.st
      = ((digest, e), s1)) :
    saveUserCalls (Auth.Register lib a email password w).2.trace
        = saveUserCalls w.trace ++ (if e = none then [(email, digest)] else [])
    ∧ (∀ userID, (Auth.Register lib a email password w).1 = (userID, none)
        ↔ e = none ∧ (a.userSaver.SaveUser email digest s1).1 = (userID, none))
    ∧ (∀ err, e = some err →
        (Auth.Register lib a email password w).1 = (0, some (Errorf "Auth.Register" err))
        ∧ errorsIs (Errorf "Auth.Register" err) err = true
        ∧ (∃ r, (Auth.Register lib a email password w).1.2 = some r
            ∧ r.Unwrap = some err
            ∧ r.Error = "Auth.Register: " ++ err.Error))
    ∧ (∀ err, e = none → (a.userSaver.SaveUser email digest s1).1.2 = some err →
        (Auth.Register lib a email password w).1 = (0, some (Errorf "Auth.Register" err))
        ∧ errorsIs (Errorf "Auth.Register" err) err = true
        ∧ (∃ r, (Auth.Register lib a email password w).1.2 = some r
            ∧ r.Unwrap = some err
            ∧ r.Error = "Auth.Register: " ++ err.Error)) := by
  cases e with
  | some err =>
    simp [Auth.Register, World.call, slog, World.emit, hhash, saveUserCalls_append,
      saveUserCalls, Errorf, errorsIs, errorsIs_self, GoError.Unwrap, GoError.Error]
  | none =>
    rcases hs : a.userSaver.SaveUser email digest s1 with ⟨⟨userID, _ | e2⟩, s2⟩
    · simp [Auth.Register, World.call, slog, World.emit, hhash, hs, saveUserCalls_append,
        saveUserCalls]
    · simp [Auth.Register, World.call, slog, World.emit, hhash, hs, saveUserCalls_append,
        saveUserCalls, Errorf, errorsIs, errorsIs_self, GoError.Unwrap, GoError.Error]

/-- C7 at concrete inputs: a first registration saves the digest once, a
password of 80 bytes is refused by the hasher and nothing is saved, a second
registration of the same email fails in the storage. -/
theorem Register_saves_digest_once_witness :
    saveUserCalls (Auth.Register Mem.lib Mem.auth "a@x.com" "pw123" Mem.w0).2.trace
        = [("a@x.com", Mem.digest 7 (stringBytes "pw123"))]
    ∧ (Auth.Register Mem.lib Mem.auth "a@x.com" "pw123" Mem.w0).1 = (1, none)
    ∧ saveUserCalls (Auth.Register Mem.lib Mem.auth "b@x.com" Mem.longPassword Mem.w0).2.trace
        = []
    ∧ (Auth.Register Mem.lib Mem.auth "b@x.com" Mem.longPassword Mem.w0).1
        = (0, some (Errorf "Auth.Register" Mem.ErrPasswordTooLong))
    ∧ (Auth.Register Mem.lib Mem.auth "a@x.com" "other" Mem.w1).1
        = (0, some (Errorf "Auth.Register" (Errorf "storage.SaveUser" Mem.ErrUserExists)))
    ∧ (∃ r, (Auth.Register Mem.lib Mem.auth "b@x.com" Mem.longPassword Mem.w0).1.2 = some r
        ∧ r.Unwrap = some Mem.ErrPasswordTooLong
        ∧ r.Error = "Auth.Register: " ++ Mem.ErrPasswordTooLong.Error)
    ∧ (∃ r, (Auth.Register Mem.lib Mem.auth "a@x.com" "other" Mem.w1).1.2 = some r
        ∧ r.Unwrap = some (Errorf "storage.SaveUser" Mem.ErrUserExists)
        ∧ r.Error = "Auth.Register: " ++ (Errorf "storage.SaveUser" Mem.ErrUserExists).Error) :=
  have h1 := Register_saves_digest_once Mem.lib Mem.auth "a@x.com" "pw123" Mem.w0
    (Mem.digest 7 (stringBytes "pw123")) none { Mem.w0.st with salt := 8 } (by decide)
  have h2 := Register_saves_digest_once Mem.lib Mem.auth "b@x.com" Mem.longPassword Mem.w0
    [] (some Mem.ErrPasswordTooLong) Mem.w0.st (by decide)
  have h3 := Register_saves_digest_once Mem.lib Mem.auth "a@x.com" "other" Mem.w1
    (Mem.digest 8 (stringBytes "other")) none { Mem.w1.st with salt := 9 } (by decide)
  ⟨h1.1, (h1.2.1 1).2 ⟨rfl, by decide⟩, h2.1, (h2.2.2.1 _ rfl).1,
    (h3.2.2.2 (Errorf "storage.SaveUser" Mem.ErrUserExists) rfl (by decide)).1,
    (h2.2.2.1 _ rfl).2.2,
    (h3.2.2.2 (Errorf "storage.SaveUser" Mem.ErrUserExists) rfl (by decide)).2.2⟩

/-- C8: when the user lookup fails with an error that neither is nor wraps
`storage.ErrUserNotFound`, or the user lookup and the digest comparison succeed
and the application lookup fails, and the failing error is not in the
`ErrInvalidCredentials` category, `Login` returns the empty token and that error
wrapped under `Auth.Login`, which is not in the `ErrInvalidCredentials` category
either. -/
theorem Login_infrastructure_error {σ : Type} (lib : Lib σ) (a : Auth σ)
    (email password : String) (appID : Int) (w : World σ) (err : GoError)
    (hfail :
      (∃ user s1, a.userProvider.User email w.st = ((user, some err), s1)
        ∧ errorsIs err ErrUserNotFound = false)
      ∨ (∃ user app s1 s2, a.userProvider.User email w.st = ((user, none), s1)
        ∧ lib.CompareHashAndPassword user.PasswordHash (stringBytes password) = none
        ∧ a.appProvider.App appID s1 = ((app, some err), s2)))
    (hinfra : errorsIs err ErrInvalidCredentials = false) :
    (Auth.Login lib a email password appID w).1 = ("", some (Errorf "Auth.Login" err))
    ∧ (Errorf "Auth.Login" err).Unwrap = some err
    ∧ errorsIs (Errorf "Auth.Login" err) err = true
    ∧ errorsIs (Errorf "Auth.Login" err) ErrInvalidCredentials = false := by
  refine ⟨?_, rfl, errorsIs_Errorf_inner _ _, ?_⟩
  · rcases hfail with ⟨user, s1, hu, hnf⟩ | ⟨user, app, s1, s2, hu, hc, hp⟩
    · simp [Auth.Login, World.call, slog, World.emit, hu, hnf]
    · simp [Auth.Login, World.call, slog, World.emit, hu, hc, hp]
  · rw [errorsIs_Errorf_invalid, hinfra]

/-- C8 at concrete inputs: a storage out of reach, and an unknown application. -/
theorem Login_infrastructure_error_witness :
    (Auth.Login Mem.lib Mem.downAuth "a@x.com" "pw123" 1 Mem.w1).1
        = ("", some (Errorf "Auth.Login" Mem.ErrUnavailable))
    ∧ errorsIs (Errorf "Auth.Login" Mem.ErrUnavailable) ErrInvalidCredentials = false
    ∧ (Auth.Login Mem.lib Mem.auth "a@x.com" "pw123" 9 Mem.w1).1
        = ("", some (Errorf "Auth.Login" (Errorf "storage.App" Mem.ErrAppNotFound)))
    ∧ errorsIs (Errorf "Auth.Login" (Errorf "storage.App" Mem.ErrAppNotFound))
        ErrInvalidCredentials = false :=
  have h1 := Login_infrastructure_error Mem.lib Mem.downAuth "a@x.com" "pw123" 1 Mem.w1
    Mem.ErrUnavailable
    (Or.inl ⟨{ ID := 0, Email := "", PasswordHash := [], IsAdmin := false }, Mem.w1.st,
      by decide, by decide⟩)
    (by decide)
  have h2 := Login_infrastructure_error Mem.lib Mem.auth "a@x.com" "pw123" 9 Mem.w1
    (Errorf "storage.App" Mem.ErrAppNotFound)
    (Or.inr ⟨(Mem.getUser "a@x.com" Mem.w1.st).1.1, { ID := 0, Name := "", Secret := "" },
      Mem.w1.st, Mem.w1.st, by decide, by decide, by decide⟩)
    (by decide)
  ⟨h1.1, h1.2.2.2, h2.1, h2.2.2.2⟩


namespace Grpc

/-! ## The transport handlers -/

/-- C5 as stated fails: the request names an unregistered email, its three
fields are present, the service fails with an error in the
`ErrInvalidCredentials` category, and the handler answers with the status
`Internal`. -/
theorem Login_handler_invalid_credentials_is_Internal :
    ("nouser@x.com" : String) ≠ "" ∧ ("pw123" : String) ≠ "" ∧ (1 : Int) ≠ emptyValue
    ∧ (Sso.Auth.Login Mem.lib Mem.auth "nouser@x.com" "pw123" 1 Mem.w1).1
        = ("", some (Errorf "Auth.Login" ErrInvalidCredentials))
    ∧ errorsIs (Errorf "Auth.Login" ErrInvalidCredentials) ErrInvalidCredentials = true
    ∧ (serverAPI.Login (served Mem.lib Mem.auth)
        { Email := "nouser@x.com", Password := "pw123", AppId := 1 }
        { st := Mem.w1, calls := [] }).1
        = (none, some { code := Code.Internal, message := "failed to login" }) := by
  decide

/-- C5, amended: for a request whose email, password and app id are present,
whatever error the service returns, in the `ErrInvalidCredentials` category or
not, the `Login` handler answers with no body and the status `Internal` with the
message `failed to login`. -/
theorem Login_handler_any_error_is_Internal {τ : Type} (s : serverAPI τ)
    (req : LoginRequest) (w : Rpc τ) (err : GoError)
    (hemail : req.Email ≠ "") (hpassword : req.Password ≠ "") (happ : req.AppId ≠ 0)
    (hfail : (s.auth.Login req.Email req.Password req.AppId w.st).1.2 = some err) :
    (s.Login req w).1 = (none, some { code := Code.Internal, message := "failed to login" }) := by
  rcases h : s.auth.Login req.Email req.Password req.AppId w.st with ⟨⟨token, e⟩, st⟩
  rw [h] at hfail
  simp only at hfail
  subst hfail
  simp [serverAPI.Login, Rpc.call, status.Error, emptyValue, hemail, hpassword, happ, h]

/-- C5, amended, at concrete inputs: an unregistered email (an error in the
`ErrInvalidCredentials` category) and a storage out of reach (an error outside
it) get the same answer. -/
theorem Login_handler_any_error_is_Internal_witness :
    (serverAPI.Login (served Mem.lib Mem.auth)
        { Email := "nouser@x.com", Password := "pw123", AppId := 1 }
        { st := Mem.w1, calls := [] }).1
        = (none, some { code := Code.Internal, message := "failed to login" })
    ∧ (serverAPI.Login (served Mem.lib Mem.downAuth)
        { Email := "a@x.com", Password := "pw123", AppId := 1 }
        { st := Mem.w1, calls := [] }).1
        = (none, some { code := Code.Internal, message := "failed to login" }) :=
  ⟨Login_handler_any_error_is_Internal (served Mem.lib Mem.auth)
      { Email := "nouser@x.com", Password := "pw123", AppId := 1 }
      { st := Mem.w1, calls := [] } (Errorf "Auth.Login" ErrInvalidCredentials)
      (by decide) (by decide) (by decide) (by decide),
    Login_handler_any_error_is_Internal (served Mem.lib Mem.downAuth)
      { Email := "a@x.com", Password := "pw123", AppId := 1 }
      { st := Mem.w1, calls := [] } (Errorf "Auth.Login" Mem.ErrUnavailable)
      (by decide) (by decide) (by decide) (by decide)⟩

/-- C9: each handler answers `InvalidArgument` exactly when a required field is
missing (`Login`: email, password, app id; `Register`: email, password;
`IsAdmin`: user id), the message naming the first missing field in that order;
in that case the world is unchanged, so the service is not called; otherwise the
handler calls the service once, with the fields of the request. -/
theorem handlers_validate_before_calling {τ : Type} (s : serverAPI τ) (w : Rpc τ) :
    (∀ req : LoginRequest,
      ((s.Login req w).1.2.map (fun st => st.code) = some Code.InvalidArgument
        ↔ req.Email = "" ∨ req.Password = "" ∨ req.AppId = 0)
      ∧ ((s.Login req w).2.calls = w.calls
        ↔ req.Email = "" ∨ req.Password = "" ∨ req.AppId = 0)
      ∧ (req.Email = "" → s.Login req w
          = ((none, some { code := Code.InvalidArgument, message := "email is required" }), w))
      ∧ (req.Email ≠ "" → req.Password = "" → s.Login req w
          = ((none, some { code := Code.InvalidArgument, message := "password is required" }),
              w))
      ∧ (req.Email ≠ "" → req.Password ≠ "" → req.AppId = 0 → s.Login req w
          = ((none, some { code := Code.InvalidArgument, message := "app_id is required" }), w))
      ∧ (req.Email ≠ "" → req.Password ≠ "" → req.AppId ≠ 0 →
          (s.Login req w).2.calls = w.calls ++ [.login req.Email req.Password req.AppId]))
    ∧ (∀ req : RegisterRequest,
      ((s.Register req w).1.2.map (fun st => st.code) = some Code.InvalidArgument
        ↔ req.Email = "" ∨ req.Password = "")
      ∧ ((s.Register req w).2.calls = w.calls ↔ req.Email = "" ∨ req.Password = "")
      ∧ (req.Email = "" → s.Register req w
          = ((none, some { code := Code.InvalidArgument, message := "email is required" }), w))
      ∧ (req.Email ≠ "" → req.Password = "" → s.Register req w
          = ((none, some { code := Code.InvalidArgument, message := "password is required" }),
              w))
      ∧ (req.Email ≠ "" → req.Password ≠ "" →
          (s.Register req w).2.calls = w.calls ++ [.register req.Email req.Password]))
    ∧ (∀ req : IsAdminRequest,
      ((s.IsAdmin req w).1.2.map (fun st => st.code) = some Code.InvalidArgument
        ↔ req.UserId = 0)
      ∧ ((s.IsAdmin req w).2.calls = w.calls ↔ req.UserId = 0)
      ∧ (req.UserId = 0 → s.IsAdmin req w
          = ((none, some { code := Code.InvalidArgument, message := "user_id is required" }), w))
      ∧ (req.UserId ≠ 0 →
          (s.IsAdmin req w).2.calls = w.calls ++ [.isAdmin req.UserId])) := by
  refine ⟨?_, ?_, ?_⟩
  · intro req
    by_cases h1 : req.Email = ""
    · simp [serverAPI.Login, status.Error, h1]
    · by_cases h2 : req.Password = ""
      · simp [serverAPI.Login, status.Error, h1, h2]
      · by_cases h3 : req.AppId = 0
        · simp [serverAPI.Login, status.Error, emptyValue, h1, h2, h3]
        · rcases h : s.auth.Login req.Email req.Password req.AppId w.st
            with ⟨⟨token, _ | e⟩, st⟩ <;>
          simp [serverAPI.Login, Rpc.call, status.Error, emptyValue, h1, h2, h3, h]
  · intro req
    by_cases h1 : req.Email = ""
    · simp [serverAPI.Register, status.Error, h1]
    · by_cases h2 : req.Password = ""
      · simp [serverAPI.Register, status.Error, h1, h2]
      · rcases h : s.auth.Register req.Email req.Password w.st
          with ⟨⟨userID, _ | e⟩, st⟩ <;>
        simp [serverAPI.Register, Rpc.call, status.Error, h1, h2, h]
  · intro req
    by_cases h1 : req.UserId = 0
    · simp [serverAPI.IsAdmin, status.Error, emptyValue, h1]
    · rcases h : s.auth.IsAdmin req.UserId w.st with ⟨⟨flag, _ | e⟩, st⟩ <;>
      simp [serverAPI.IsAdmin, Rpc.call, status.Error, emptyValue, h1, h]

/-- C9 at concrete inputs: a `Login` request without password is answered
without a call, a complete one reaches the service. -/
theorem handlers_validate_before_calling_witness :
    serverAPI.Login (served Mem.lib Mem.auth)
        { Email := "a@x.com", Password := "", AppId := 0 } { st := Mem.w1, calls := [] }
        = ((none, some { code := Code.InvalidArgument, message := "password is required" }),
            { st := Mem.w1, calls := [] })
    ∧ (serverAPI.Login (served Mem.lib Mem.auth)
        { Email := "a@x.com", Password := "pw123", AppId := 1 }
        { st := Mem.w1, calls := [] }).2.calls = [] ++ [.login "a@x.com" "pw123" 1]
    ∧ (serverAPI.IsAdmin (served Mem.lib Mem.auth) { UserId := 0 }
        { st := Mem.w1, calls := [] })
        = ((none, some { code := Code.InvalidArgument, message := "user_id is required" }),
            { st := Mem.w1, calls := [] }) :=
  have h := handlers_validate_before_calling (served Mem.lib Mem.auth)
    { st := Mem.w1, calls := [] }
  ⟨(h.1 { Email := "a@x.com", Password := "", AppId := 0 }).2.2.2.1 (by decide) rfl,
    (h.1 { Email := "a@x.com", Password := "pw123", AppId := 1 }).2.2.2.2.2
      (by decide) (by decide) (by decide),
    (h.2.2 { UserId := 0 }).2.2.1 rfl⟩

/-- C10: for a request with its required fields present, any two runs in which
the service returns an error get the same answer from a handler, whatever the
two errors are: no body and the status `Internal` with the fixed message of the
handler.  In particular, served by the authentication service, a `Login` for an
unregistered email and a `Login` with a wrong password get the same answer. -/
theorem handlers_answer_independent_of_error {τ : Type} (s1 s2 : serverAPI τ)
    (w1 w2 : Rpc τ) :
    (∀ (req : LoginRequest) (e1 e2 : GoError),
      req.Email ≠ "" → req.Password ≠ "" → req.AppId ≠ 0 →
      (s1.auth.Login req.Email req.Password req.AppId w1.st).1.2 = some e1 →
      (s2.auth.Login req.Email req.Password req.AppId w2.st).1.2 = some e2 →
      (s1.Login req w1).1 = (s2.Login req w2).1
      ∧ (s1.Login req w1).1
          = (none, some { code := Code.Internal, message := "failed to login" }))
    ∧ (∀ (req : RegisterRequest) (e1 e2 : GoError),
      req.Email ≠ "" → req.Password ≠ "" →
      (s1.auth.Register req.Email req.Password w1.st).1.2 = some e1 →
      (s2.auth.Register req.Email req.Password w2.st).1.2 = some e2 →
      (s1.Register req w1).1 = (s2.Register req w2).1
      ∧ (s1.Register req w1).1
          = (none, some { code := Code.Internal, message := "failed to register" }))
    ∧ (∀ (req : IsAdminRequest) (e1 e2 : GoError),
      req.UserId ≠ 0 →
      (s1.auth.IsAdmin req.UserId w1.st).1.2 = some e1 →
      (s2.auth.IsAdmin req.UserId w2.st).1.2 = some e2 →
      (s1.IsAdmin req w1).1 = (s2.IsAdmin req w2).1
      ∧ (s1.IsAdmin req w1).1
          = (none, some { code := Code.Internal, message := "failed to check admin status" }))
    ∧ (∀ (σ : Type) (lib : Lib σ) (a : Sso.Auth σ) (reqA reqB : LoginRequest)
        (wA wB : Rpc (World σ)) (userA userB : User) (errA errB : GoError) (sA sB : σ),
      reqA.Email ≠ "" → reqA.Password ≠ "" → reqA.AppId ≠ 0 →
      reqB.Email ≠ "" → reqB.Password ≠ "" → reqB.AppId ≠ 0 →
      a.userProvider.User reqA.Email wA.st.st = ((userA, some errA), sA) →
      errorsIs errA ErrUserNotFound = true →
      a.userProvider.User reqB.Email wB.st.st = ((userB, none), sB) →
      lib.CompareHashAndPassword userB.PasswordHash (stringBytes reqB.Password)
        = some errB →
      ((served lib a).Login reqA wA).1 = ((served lib a).Login reqB wB).1) := by
  have hL : ∀ (s : serverAPI τ) (w : Rpc τ) (req : LoginRequest) (e : GoError),
      req.Email ≠ "" → req.Password ≠ "" → req.AppId ≠ 0 →
      (s.auth.Login req.Email req.Password req.AppId w.st).1.2 = some e →
      (s.Login req w).1
        = (none, some { code := Code.Internal, message := "failed to login" }) := by
    intro s w req e h1 h2 h3 h
    rcases hr : s.auth.Login req.Email req.Password req.AppId w.st with ⟨⟨token, e0⟩, st⟩
    rw [hr] at h
    simp only at h
    subst h
    simp [serverAPI.Login, Rpc.call, status.Error, emptyValue, h1, h2, h3, hr]
  have hR : ∀ (s : serverAPI τ) (w : Rpc τ) (req : RegisterRequest) (e : GoError),
      req.Email ≠ "" → req.Password ≠ "" →
      (s.auth.Register req.Email req.Password w.st).1.2 = some e →
      (s.Register req w).1
        = (none, some { code := Code.Internal, message := "failed to register" }) := by
    intro s w req e h1 h2 h
    rcases hr : s.auth.Register req.Email req.Password w.st with ⟨⟨userID, e0⟩, st⟩
    rw [hr] at h
    simp only at h
    subst h
    simp [serverAPI.Register, Rpc.call, status.Error, h1, h2, hr]
  have hA : ∀ (s : serverAPI τ) (w : Rpc τ) (req : IsAdminRequest) (e : GoError),
      req.UserId ≠ 0 →
      (s.auth.IsAdmin req.UserId w.st).1.2 = some e →
      (s.IsAdmin req w).1
        = (none, some { code := Code.Internal, message := "failed to check admin status" }) := by
    intro s w req e h1 h
    rcases hr : s.auth.IsAdmin req.UserId w.st with ⟨⟨flag, e0⟩, st⟩
    rw [hr] at h
    simp only at h
    subst h
    simp [serverAPI.IsAdmin, Rpc.call, status.Error, emptyValue, h1, hr]
  refine ⟨?_, ?_, ?_, ?_⟩
  · intro req e1 e2 h1 h2 h3 ha hb
    rw [hL s1 w1 req e1 h1 h2 h3 ha, hL s2 w2 req e2 h1 h2 h3 hb]
    exact ⟨rfl, rfl⟩
  · intro req e1 e2 h1 h2 ha hb
    rw [hR s1 w1 req e1 h1 h2 ha, hR s2 w2 req e2 h1 h2 hb]
    exact ⟨rfl, rfl⟩
  · intro req e1 e2 h1 ha hb
    rw [hA s1 w1 req e1 h1 ha, hA s2 w2 req e2 h1 hb]
    exact ⟨rfl, rfl⟩
  · intro σ lib a reqA reqB wA wB userA userB errA errB sA sB a1 a2 a3 b1 b2 b3 hA1 hA2
      hB1 hB2
    simp [serverAPI.Login, served, Rpc.call, status.Error, emptyValue, a1, a2, a3, b1, b2,
      b3, Sso.Auth.Login, World.call, slog, World.emit, hA1, hA2, hB1, hB2]

/-- C10 at concrete inputs: an unknown email, a wrong password and a storage
out of reach get the same answer from the `Login` handler. -/
theorem handlers_answer_independent_of_error_witness :
    (serverAPI.Login (served Mem.lib Mem.auth)
        { Email := "a@x.com", Password := "wrong", AppId := 1 }
        { st := Mem.w1, calls := [] }).1
      = (serverAPI.Login (served Mem.lib Mem.downAuth)
        { Email := "a@x.com", Password := "wrong", AppId := 1 }
        { st := Mem.w1, calls := [] }).1
    ∧ (serverAPI.Login (served Mem.lib Mem.auth)
        { Email := "nouser@x.com", Password := "pw123", AppId := 1 }
        { st := Mem.w1, calls := [] }).1
      = (serverAPI.Login (served Mem.lib Mem.auth)
        { Email := "a@x.com", Password := "wrong", AppId := 1 }
        { st := Mem.w1, calls := [] }).1 :=
  ⟨((handlers_answer_independent_of_error (served Mem.lib Mem.auth)
        (served Mem.lib Mem.downAuth) { st := Mem.w1, calls := [] }
        { st := Mem.w1, calls := [] }).1
      { Email := "a@x.com", Password := "wrong", AppId := 1 }
      (Errorf "Auth.Login" ErrMismatchedHashAndPassword)
      (Errorf "Auth.Login" Mem.ErrUnavailable)
      (by decide) (by decide) (by decide) (by decide) (by decide)).1,
    (handlers_answer_independent_of_error (served Mem.lib Mem.auth)
        (served Mem.lib Mem.auth) { st := Mem.w1, calls := [] }
        { st := Mem.w1, calls := [] }).2.2.2
      Mem.Store Mem.lib Mem.auth
      { Email := "nouser@x.com", Password := "pw123", AppId := 1 }
      { Email := "a@x.com", Password := "wrong", AppId := 1 }
      { st := Mem.w1, calls := [] } { st := Mem.w1, calls := [] }
      { ID := 0, Email := "", PasswordHash := [], IsAdmin := false }
      (Mem.getUser "a@x.com" Mem.w1.st).1.1
      (Errorf "storage.User" ErrUserNotFound) ErrMismatchedHashAndPassword
      Mem.w1.st Mem.w1.st
      (by decide) (by decide) (by decide) (by decide) (by decide) (by decide)
      (by decide) (by decide) (by decide) (by decide)⟩

end Grpc

end Sso
